import Mathlib

/-!
Shallow embedding of the tabpfn-client session/estimator core:
`src/tabpfn_client/config.py` (global session state, `init`, `reset`) and
`src/tabpfn_client/estimator.py` (`TabPFNClassifier`, `TabPFNRegressor`).

Python `None`/values are modelled with `Option`; Python truthiness of the
optional fields is made explicit.  External collaborators (`ServiceClient`,
`UserAuthenticationClient`, `InferenceClient`, `PromptAgent`, `shutil`) are
modelled by an environment record supplying their answers, and every call to a
remote collaborator (plus the printed model-mismatch warning and the cache-dir
removal) is recorded as an `Event` so that claims about which side effects
happen, and in what order, can be stated.
-/

namespace TabPFNClient

/-- Observable side effects of the embedded operations: calls on the remote
collaborators, the cache-directory removal, and the printed warning on a
model-sentinel mismatch. -/
inductive Event where
  | isAccessibleCall
  | tryReuseTokenCall
  | promptAndSetTokenCall
  | retrieveGreetingMessagesCall
  | resetCacheCall
  | rmtreeCacheDir
  | verificationStatusCall (email : String)
  | inferenceFitCall
  | inferencePredictCall (task : String)
  | warnModelMismatch
  deriving DecidableEq

/-- The auth collaborator handle stored in the session state; the only
behaviour of it the embedded code consumes is the per-email verification
status (`get_user_email_verification_status`). -/
structure UserAuthenticationClient where
  get_user_email_verification_status : String → Bool

/-- The regression response mapping returned by the inference collaborator:
the fields of `predict_full`'s result that `predict` selects from. -/
structure RegressionResponse where
  mean : ℚ
  median : ℚ
  mode : ℚ
  deriving DecidableEq

/-- The inference collaborator handle stored in the session state, modelled by
the responses it returns: the "probas" field for classification and the full
mapping for regression. -/
structure InferenceClient where
  probas : List (List ℚ)
  regression : RegressionResponse

/-- `class TabPFNConfig` of `config.py`: every attribute starts as `None`. -/
structure TabPFNConfig where
  is_initialized : Option Bool
  user_email : Option String
  use_server : Option Bool
  user_auth_handler : Option UserAuthenticationClient
  inference_handler : Option InferenceClient

/-- The freshly constructed `TabPFNConfig()`: all attributes `None`. -/
def initialConfig : TabPFNConfig :=
  { is_initialized := none, user_email := none, use_server := none,
    user_auth_handler := none, inference_handler := none }

/-- Python truthiness of an optional boolean attribute (`None` is falsy). -/
def pyTruthyOptBool : Option Bool → Bool
  | none => false
  | some b => b

/-- Python truthiness of an optional string attribute (`None` and the empty
string are falsy). -/
def pyTruthyOptStr : Option String → Bool
  | none => false
  | some s => decide (s ≠ "")

/-- Answers of the external collaborators during `init`:
connectivity check, cached-token reuse, terms prompt, the email produced by
the login/register prompt, the server-side verification statuses, and the
inference collaborator wired into the session. -/
structure Env where
  accessible : Bool
  reuse_token : Bool
  terms_accepted : Bool
  login_email : String
  verification : String → Bool
  inference : InferenceClient

/-- The two `RuntimeError`s `init` can raise. -/
inductive InitError where
  | inaccessible
  | termsNotAgreed
  deriving DecidableEq

/-- `config.init(use_server)`.  Returns the outcome, the session state after
the call (unchanged when an error is raised: both raises happen before any
mutation of `g_tabpfn_config`), and the recorded events.

Mirrors `config.py` lines 20-62: in server mode it prompts the welcome
message (CLI only), builds the handles, checks connectivity, tries to reuse a
cached token, otherwise requires terms acceptance and runs the login/register
prompt (which is the only path that sets `user_email`), retrieves greeting
messages, then sets `use_server`, both handles, and finally
`is_initialized = True`.  In non-server mode it only sets
`use_server = False` and `is_initialized = True`. -/
def init (env : Env) (g : TabPFNConfig) (use_server : Bool) :
    Except InitError Unit × TabPFNConfig × List Event :=
  if use_server then
    -- PromptAgent.prompt_welcome(): CLI interaction only, no remote call
    let handler : UserAuthenticationClient := ⟨env.verification⟩
    if !env.accessible then
      -- raise RuntimeError("TabPFN is inaccessible at the moment, ...")
      (Except.error InitError.inaccessible, g, [Event.isAccessibleCall])
    else if env.reuse_token then
      -- PromptAgent.prompt_reusing_existing_token(): CLI only;
      -- note that this branch leaves user_email untouched
      (Except.ok (),
       { g with use_server := some true, user_auth_handler := some handler,
                inference_handler := some env.inference,
                is_initialized := some true },
       [Event.isAccessibleCall, Event.tryReuseTokenCall,
        Event.retrieveGreetingMessagesCall])
    else if !env.terms_accepted then
      -- raise RuntimeError("You must agree to the terms and conditions ...")
      (Except.error InitError.termsNotAgreed, g,
       [Event.isAccessibleCall, Event.tryReuseTokenCall])
    else
      -- g_tabpfn_config.user_email = PromptAgent.prompt_and_set_token(...)
      (Except.ok (),
       { g with user_email := some env.login_email,
                use_server := some true, user_auth_handler := some handler,
                inference_handler := some env.inference,
                is_initialized := some true },
       [Event.isAccessibleCall, Event.tryReuseTokenCall,
        Event.promptAndSetTokenCall, Event.retrieveGreetingMessagesCall])
  else
    (Except.ok (),
     { g with use_server := some false, is_initialized := some true }, [])

/-- `config.reset()`.  Faithful to `config.py` lines 65-75: the global config
is replaced by a fresh `TabPFNConfig()` FIRST, and only then is
`g_tabpfn_config.use_server` tested — so the test reads the fresh config,
whose `use_server` is `None`, and `reset_cache()` is never invoked.  Finally
`shutil.rmtree(CACHE_DIR, ignore_errors=True)` removes the cache directory,
ignoring absence. -/
def reset (_g : TabPFNConfig) : TabPFNConfig × List Event :=
  let fresh : TabPFNConfig := initialConfig
  let cacheEvents : List Event :=
    if pyTruthyOptBool fresh.use_server then [Event.resetCacheCall] else []
  (fresh, cacheEvents ++ [Event.rmtreeCacheDir])

/-- The errors the estimator façades can raise: the unverified-email
`RuntimeError` at construction, the "init() must be called" `RuntimeError`,
the `NotImplementedError` of local mode, sklearn's `NotFittedError`, the
`AttributeError` of calling a method on a `None` handle, and the
`ValueError` for an unsupported `optimize_metric`. -/
inductive EstimatorError where
  | emailNotVerified
  | notInitialized
  | notImplementedLocalMode
  | notFitted
  | noneAttributeError
  | unsupportedMetric (metric : Option String)
  deriving DecidableEq

/-- The shared construction-time check of both estimators
(`estimator.py` lines 184-188 and 320-324):
`if config.g_tabpfn_config.user_email and not
config.g_tabpfn_config.user_auth_handler.get_user_email_verification_status(...)`.
A `None` (or empty) `user_email` is falsy, so the check is skipped; with a
truthy email but a `None` auth handle the attribute access itself fails;
otherwise the status query decides between success and the
"your email has not been verified" `RuntimeError`. -/
def checkUserVerification (g : TabPFNConfig) :
    Except EstimatorError Unit × List Event :=
  match g.user_email with
  | none => (Except.ok (), [])
  | some e =>
    if e = "" then (Except.ok (), [])
    else
      match g.user_auth_handler with
      | none => (Except.error EstimatorError.noneAttributeError, [])
      | some h =>
        if h.get_user_email_verification_status e then
          (Except.ok (), [Event.verificationStatusCall e])
        else
          (Except.error EstimatorError.emailNotVerified,
           [Event.verificationStatusCall e])

/-- `TabPFNClassifier` instance state: the `model` parameter (the only
configuration field the embedded code paths inspect besides
`optimize_metric`, which the classifier never reads) and the `fitted_`
attribute (`false` = attribute absent). -/
structure TabPFNClassifier where
  model : String
  fitted : Bool
  deriving DecidableEq

/-- `TabPFNClassifier.__init__` reading session state `g`: assigns the
configuration verbatim, then runs the verified-email check. -/
def TabPFNClassifier.make (g : TabPFNConfig) (model : String) :
    Except EstimatorError TabPFNClassifier × List Event :=
  match checkUserVerification g with
  | (Except.ok _, ev) => (Except.ok { model := model, fitted := false }, ev)
  | (Except.error e, ev) => (Except.error e, ev)

/-- `TabPFNClassifier.fit` (`estimator.py` lines 190-210): requires
`is_initialized` truthy, then in server mode prints (not raises) a warning
when `model` differs from the `"latest_tabpfn_hosted"` sentinel, forwards to
the inference handle's `fit`, sets `fitted_` and returns `self`; in
non-server mode raises `NotImplementedError`. -/
def TabPFNClassifier.fit (c : TabPFNClassifier) (g : TabPFNConfig) :
    Except EstimatorError TabPFNClassifier × List Event :=
  if !pyTruthyOptBool g.is_initialized then
    (Except.error EstimatorError.notInitialized, [])
  else if pyTruthyOptBool g.use_server then
    let warnEvents : List Event :=
      if c.model = "latest_tabpfn_hosted" then [] else [Event.warnModelMismatch]
    match g.inference_handler with
    | none => (Except.error EstimatorError.noneAttributeError, warnEvents)
    | some _ =>
      (Except.ok { c with fitted := true }, warnEvents ++ [Event.inferenceFitCall])
  else
    (Except.error EstimatorError.notImplementedLocalMode, [])

/-- `numpy.argmax` on one row: the index of the FIRST occurrence of the
row's maximum (0 on an empty row, where numpy would raise). -/
def np_argmax : List ℚ → Nat
  | [] => 0
  | [_] => 0
  | x :: y :: ys =>
    let r := np_argmax (y :: ys)
    if (y :: ys).getD r 0 > x then r + 1 else 0

/-- `TabPFNClassifier.predict_proba` (`estimator.py` lines 216-220):
`check_is_fitted(self)` first — note there is NO `is_initialized` check on
the predict path — then forwards to the inference handle's `predict` with
`task="classification"` and extracts the "probas" field. -/
def TabPFNClassifier.predict_proba (c : TabPFNClassifier) (g : TabPFNConfig) :
    Except EstimatorError (List (List ℚ)) × List Event :=
  if !c.fitted then
    (Except.error EstimatorError.notFitted, [])
  else
    match g.inference_handler with
    | none => (Except.error EstimatorError.noneAttributeError, [])
    | some h =>
      (Except.ok h.probas, [Event.inferencePredictCall "classification"])

/-- `TabPFNClassifier.predict` (`estimator.py` lines 212-214):
`np.argmax(self.predict_proba(X), axis=1)`. -/
def TabPFNClassifier.predict (c : TabPFNClassifier) (g : TabPFNConfig) :
    Except EstimatorError (List Nat) × List Event :=
  match c.predict_proba g with
  | (Except.ok probas, ev) => (Except.ok (probas.map np_argmax), ev)
  | (Except.error e, ev) => (Except.error e, ev)

/-- `TabPFNRegressor` instance state: `model`, `optimize_metric` (the two
configuration fields the embedded code paths inspect) and the `fitted_`
attribute. -/
structure TabPFNRegressor where
  model : String
  optimize_metric : Option String
  fitted : Bool
  deriving DecidableEq

/-- `TabPFNRegressor.__init__` reading session state `g`: assigns the
configuration verbatim, then runs the same verified-email check. -/
def TabPFNRegressor.make (g : TabPFNConfig) (model : String)
    (optimize_metric : Option String) :
    Except EstimatorError TabPFNRegressor × List Event :=
  match checkUserVerification g with
  | (Except.ok _, ev) =>
    (Except.ok { model := model, optimize_metric := optimize_metric,
                 fitted := false }, ev)
  | (Except.error e, ev) => (Except.error e, ev)

/-- `TabPFNRegressor.fit` (`estimator.py` lines 326-346): identical control
flow to the classifier's `fit`. -/
def TabPFNRegressor.fit (r : TabPFNRegressor) (g : TabPFNConfig) :
    Except EstimatorError TabPFNRegressor × List Event :=
  if !pyTruthyOptBool g.is_initialized then
    (Except.error EstimatorError.notInitialized, [])
  else if pyTruthyOptBool g.use_server then
    let warnEvents : List Event :=
      if r.model = "latest_tabpfn_hosted" then [] else [Event.warnModelMismatch]
    match g.inference_handler with
    | none => (Except.error EstimatorError.noneAttributeError, warnEvents)
    | some _ =>
      (Except.ok { r with fitted := true }, warnEvents ++ [Event.inferenceFitCall])
  else
    (Except.error EstimatorError.notImplementedLocalMode, [])

/-- `TabPFNRegressor.predict_full` (`estimator.py` lines 359-363):
`check_is_fitted(self)` then forward to the inference handle's `predict`
with `task="regression"`, returning the full response mapping. -/
def TabPFNRegressor.predict_full (r : TabPFNRegressor) (g : TabPFNConfig) :
    Except EstimatorError RegressionResponse × List Event :=
  if !r.fitted then
    (Except.error EstimatorError.notFitted, [])
  else
    match g.inference_handler with
    | none => (Except.error EstimatorError.noneAttributeError, [])
    | some h =>
      (Except.ok h.regression, [Event.inferencePredictCall "regression"])

/-- `TabPFNRegressor.predict` (`estimator.py` lines 348-357): calls
`predict_full` first, then selects a field of the response according to
`optimize_metric`, raising `ValueError` on an unsupported value. -/
def TabPFNRegressor.predict (r : TabPFNRegressor) (g : TabPFNConfig) :
    Except EstimatorError ℚ × List Event :=
  match r.predict_full g with
  | (Except.error e, ev) => (Except.error e, ev)
  | (Except.ok d, ev) =>
    if r.optimize_metric ∈ [some "mse", some "rmse", some "r2", some "mean", none] then
      (Except.ok d.mean, ev)
    else if r.optimize_metric ∈ [some "mae", some "median"] then
      (Except.ok d.median, ev)
    else if r.optimize_metric ∈ [some "mode", some "exact_match"] then
      (Except.ok d.mode, ev)
    else
      (Except.error (EstimatorError.unsupportedMetric r.optimize_metric), ev)

/-- Session states reachable from process start by any sequence of `init`
calls (with any collaborator answers, keeping the post-state whether or not
the call raised) and `reset` calls. -/
inductive Reachable : TabPFNConfig → Prop
  | start : Reachable initialConfig
  | initStep (env : Env) (us : Bool) {g : TabPFNConfig} :
      Reachable g → Reachable (init env g us).2.1
  | resetStep {g : TabPFNConfig} :
      Reachable g → Reachable (reset g).1

/-! Concrete collaborator answers and session states used by the
counterexamples and witnesses. -/

/-- A demo regression response with distinct field values. -/
def regressionDemo : RegressionResponse := { mean := 5, median := 7, mode := 9 }

/-- A demo inference collaborator. -/
def inferenceDemo : InferenceClient :=
  { probas := [[mkRat 1 10, mkRat 9 10], [mkRat 7 10, mkRat 3 10]],
    regression := regressionDemo }

/-- Collaborator answers for a server-mode `init` that succeeds through the
cached-credential-reuse path. -/
def envReuse : Env :=
  { accessible := true, reuse_token := true, terms_accepted := true,
    login_email := "user@example.com", verification := fun _ => true,
    inference := inferenceDemo }

/-- The session state after a successful server-mode `init` from process
start (cached-credential path). -/
def serverInitState : TabPFNConfig := (init envReuse initialConfig true).2.1

/-- The session state after a successful server-mode `init` followed by a
local-mode `init`: the handles from the first `init` remain set. -/
def staleHandleState : TabPFNConfig := (init envReuse serverInitState false).2.1

/-- A directly-specified initialized server-mode session whose auth handle
reports every email as unverified. -/
def unverifiedSession : TabPFNConfig :=
  { is_initialized := some true, user_email := some "user@example.com",
    use_server := some true, user_auth_handler := some ⟨fun _ => false⟩,
    inference_handler := some inferenceDemo }

/-! Helper lemmas about `np_argmax`. -/

/-- On a nonempty row, `np_argmax` is a valid index. -/
theorem np_argmax_lt : ∀ (l : List ℚ), l ≠ [] → np_argmax l < l.length
  | [], h => absurd rfl h
  | [_], _ => by simp [np_argmax]
  | _ :: y :: ys, _ => by
    have ih := np_argmax_lt (y :: ys) (by simp)
    simp only [np_argmax]
    split
    · exact Nat.succ_lt_succ ih
    · simp

/-- Every entry of the row is at most the entry at index `np_argmax`. -/
theorem np_argmax_le : ∀ (l : List ℚ), ∀ j < l.length,
    l.getD j 0 ≤ l.getD (np_argmax l) 0
  | [], j, hj => absurd hj (by simp)
  | [x], j, hj => by
    have hj0 : j = 0 := Nat.lt_one_iff.mp (by simpa using hj)
    subst hj0
    simp [np_argmax]
  | x :: y :: ys, j, hj => by
    have ih : ∀ k < (y :: ys).length,
        (y :: ys).getD k 0 ≤ (y :: ys).getD (np_argmax (y :: ys)) 0 :=
      np_argmax_le (y :: ys)
    simp only [np_argmax]
    split
    · case isTrue hgt =>
      cases j with
      | zero => simpa using le_of_lt hgt
      | succ k =>
        have hk : k < (y :: ys).length := by simpa using Nat.lt_of_succ_lt_succ hj
        simpa using ih k hk
    · case isFalse hle =>
      cases j with
      | zero => simp
      | succ k =>
        have hk : k < (y :: ys).length := by simpa using Nat.lt_of_succ_lt_succ hj
        have h1 := ih k hk
        have h2 : (y :: ys).getD (np_argmax (y :: ys)) 0 ≤ x := le_of_not_lt hle
        simpa using le_trans h1 h2

/-- A classifier as constructed with the default sentinel model, not yet
fitted. -/
def freshClassifier : TabPFNClassifier :=
  { model := "latest_tabpfn_hosted", fitted := false }

/-- A regressor as constructed with the default sentinel model and default
metric, not yet fitted. -/
def freshRegressor : TabPFNRegressor :=
  { model := "latest_tabpfn_hosted", optimize_metric := some "rmse",
    fitted := false }

/-- The invariant that holds of every reachable session state: the two
handles are always both set or both unset; a set handle implies
`is_initialized = True`; and a truthy `use_server` together with a truthy
`is_initialized` implies both handles are set.  (The converse of the last
implication fails: `init(use_server=False)` after a server-mode `init`
leaves the handles set while `use_server` becomes `False`.) -/
theorem reachable_handles_inv (g : TabPFNConfig) (h : Reachable g) :
    ((pyTruthyOptBool g.use_server = true ∧ pyTruthyOptBool g.is_initialized = true) →
      (g.user_auth_handler.isSome = true ∧ g.inference_handler.isSome = true)) ∧
    (g.user_auth_handler.isSome = true → g.is_initialized = some true) ∧
    (g.user_auth_handler.isSome = g.inference_handler.isSome) := by
  induction h with
  | start => exact ⟨by simp [initialConfig, pyTruthyOptBool], by simp [initialConfig], rfl⟩
  | initStep env us hg ih =>
    cases us with
    | false =>
      refine ⟨?_, fun _ => ?_, ?_⟩
      · simp [init, pyTruthyOptBool]
      · simp [init]
      · simpa [init] using ih.2.2
    | true =>
      by_cases hacc : env.accessible
      · by_cases hreuse : env.reuse_token
        · refine ⟨fun _ => ?_, fun _ => ?_, ?_⟩ <;> simp [init, hacc, hreuse]
        · by_cases hterms : env.terms_accepted
          · refine ⟨fun _ => ?_, fun _ => ?_, ?_⟩ <;>
              simp [init, hacc, hreuse, hterms]
          · simpa [init, hacc, hreuse, hterms] using ih
      · simpa [init, hacc] using ih
  | resetStep hg ih =>
    exact ⟨by simp [reset, initialConfig, pyTruthyOptBool], by simp [reset, initialConfig], rfl⟩

/-- C1: the claim fails at the code — on the session state produced by a
successful server-mode `init` (whose `use_server` is truthy), `reset` never
invokes the auth handle's `reset_cache`: `config.reset` replaces the global
config with a fresh `TabPFNConfig()` before testing `use_server`, so the
test always reads `None` and the invalidation branch is dead.  The
cache-directory removal (with `ignore_errors=True`) does happen. -/
theorem C1_reset_cache_never_invoked :
    pyTruthyOptBool serverInitState.use_server = true ∧
    (reset serverInitState).2.count Event.resetCacheCall = 0 ∧
    (reset serverInitState).2 = [Event.rmtreeCacheDir] := by decide

/-- C2 counterexample: the state reached by a successful server-mode `init`
followed by `init(use_server=False)` is reachable, its handles are non-null,
yet `use_server` is not true — refuting the claimed iff. -/
theorem C2_counterexample :
    Reachable staleHandleState ∧
    ¬((staleHandleState.user_auth_handler.isSome = true ∧
        staleHandleState.inference_handler.isSome = true) ↔
      (pyTruthyOptBool staleHandleState.use_server = true ∧
        pyTruthyOptBool staleHandleState.is_initialized = true)) :=
  ⟨Reachable.initStep envReuse false
      (Reachable.initStep envReuse true Reachable.start),
   by decide⟩

/-- C2 (amended): in every reachable session state, `auth_handle` and
`inference_handle` are both null or both non-null; if `use_server` is true
and `initialized` is true then both are non-null; and non-null handles imply
`initialized` is true (but no longer that `use_server` is true, since a
later `init(use_server=False)` leaves the handles set). -/
theorem C2_handles_iff_amended (g : TabPFNConfig) (h : Reachable g) :
    ((pyTruthyOptBool g.use_server = true ∧ pyTruthyOptBool g.is_initialized = true) →
      (g.user_auth_handler.isSome = true ∧ g.inference_handler.isSome = true)) ∧
    (g.user_auth_handler.isSome = true → g.is_initialized = some true) ∧
    (g.user_auth_handler.isSome = g.inference_handler.isSome) :=
  reachable_handles_inv g h

/-- C2 witness: the amended invariant evaluated at the reachable state
`staleHandleState`. -/
theorem C2_handles_iff_amended_witness :
    ((pyTruthyOptBool staleHandleState.use_server = true ∧
        pyTruthyOptBool staleHandleState.is_initialized = true) →
      (staleHandleState.user_auth_handler.isSome = true ∧
        staleHandleState.inference_handler.isSome = true)) ∧
    (staleHandleState.user_auth_handler.isSome = true →
      staleHandleState.is_initialized = some true) ∧
    (staleHandleState.user_auth_handler.isSome =
      staleHandleState.inference_handler.isSome) :=
  C2_handles_iff_amended staleHandleState
    (Reachable.initStep envReuse false
      (Reachable.initStep envReuse true Reachable.start))

/-- C3 counterexample: with the session not initialized, `predict` on a
fresh (unfitted) classifier fails with sklearn's not-fitted error, not with
the "initializer not called" error — the predict path never checks
`is_initialized`. -/
theorem C3_counterexample :
    pyTruthyOptBool initialConfig.is_initialized = false ∧
    (freshClassifier.predict initialConfig).1 =
      Except.error EstimatorError.notFitted ∧
    EstimatorError.notFitted ≠ EstimatorError.notInitialized :=
  ⟨rfl, rfl, by decide⟩

/-- C3 (amended): while the session is not initialized, `fit` fails with the
"initializer not called" error for both estimator variants; `predict` also
fails, but — since the predict path checks only fittedness and the handle —
with the not-fitted error when the estimator is unfitted, or with the
`None`-handle attribute error when it was fitted and the session has no
inference handle, never with the not-initialized error. -/
theorem C3_uninitialized_failures (g : TabPFNConfig) (c : TabPFNClassifier)
    (r : TabPFNRegressor)
    (hinit : pyTruthyOptBool g.is_initialized = false) :
    (c.fit g).1 = Except.error EstimatorError.notInitialized ∧
    (r.fit g).1 = Except.error EstimatorError.notInitialized ∧
    (c.fitted = false →
      (c.predict g).1 = Except.error EstimatorError.notFitted) ∧
    (r.fitted = false →
      (r.predict g).1 = Except.error EstimatorError.notFitted) ∧
    (c.fitted = true → g.inference_handler = none →
      (c.predict g).1 = Except.error EstimatorError.noneAttributeError) ∧
    (r.fitted = true → g.inference_handler = none →
      (r.predict g).1 = Except.error EstimatorError.noneAttributeError) := by
  refine ⟨?_, ?_, ?_, ?_, ?_, ?_⟩
  · simp [TabPFNClassifier.fit, hinit]
  · simp [TabPFNRegressor.fit, hinit]
  · intro hf
    simp [TabPFNClassifier.predict, TabPFNClassifier.predict_proba, hf]
  · intro hf
    simp [TabPFNRegressor.predict, TabPFNRegressor.predict_full, hf]
  · intro hf hh
    simp [TabPFNClassifier.predict, TabPFNClassifier.predict_proba, hf, hh]
  · intro hf hh
    simp [TabPFNRegressor.predict, TabPFNRegressor.predict_full, hf, hh]

/-- C3 witness: the amended statement evaluated at the fresh session state
and fresh estimators. -/
theorem C3_uninitialized_failures_witness :
    (freshClassifier.fit initialConfig).1 =
      Except.error EstimatorError.notInitialized ∧
    (freshRegressor.fit initialConfig).1 =
      Except.error EstimatorError.notInitialized ∧
    (freshClassifier.fitted = false →
      (freshClassifier.predict initialConfig).1 =
        Except.error EstimatorError.notFitted) ∧
    (freshRegressor.fitted = false →
      (freshRegressor.predict initialConfig).1 =
        Except.error EstimatorError.notFitted) ∧
    (freshClassifier.fitted = true → initialConfig.inference_handler = none →
      (freshClassifier.predict initialConfig).1 =
        Except.error EstimatorError.noneAttributeError) ∧
    (freshRegressor.fitted = true → initialConfig.inference_handler = none →
      (freshRegressor.predict initialConfig).1 =
        Except.error EstimatorError.noneAttributeError) :=
  C3_uninitialized_failures initialConfig freshClassifier freshRegressor rfl

/-- C4 counterexample: starting from the server-mode-initialized state,
`init(use_server=False)` succeeds but leaves both handles non-null,
refuting the claim that the resulting handles are null for every starting
state. -/
theorem C4_counterexample :
    (init envReuse serverInitState false).1 = Except.ok () ∧
    (init envReuse serverInitState false).2.1.user_auth_handler.isSome = true ∧
    (init envReuse serverInitState false).2.1.inference_handler.isSome = true :=
  ⟨rfl, rfl, rfl⟩

/-- C4 (amended): for every starting session state, `init(use_server=False)`
succeeds, performs no collaborator call at all, sets `use_server = False`
and `is_initialized = True`, and leaves `auth_handle`, `inference_handle`
and `user_email` unchanged — hence null exactly when they were null before
(in particular null from a fresh or reset state). -/
theorem C4_local_init_frame (env : Env) (g : TabPFNConfig) :
    (init env g false).1 = Except.ok () ∧
    (init env g false).2.2 = [] ∧
    (init env g false).2.1.use_server = some false ∧
    (init env g false).2.1.is_initialized = some true ∧
    (init env g false).2.1.user_auth_handler = g.user_auth_handler ∧
    (init env g false).2.1.inference_handler = g.inference_handler ∧
    (init env g false).2.1.user_email = g.user_email := by
  simp [init]

/-- C5 counterexample: a server-mode `init` from the fresh state through the
cached-credential-reuse path completes without error, yet leaves
`user_email` unset — refuting the claim that both paths populate it. -/
theorem C5_counterexample :
    (init envReuse initialConfig true).1 = Except.ok () ∧
    envReuse.reuse_token = true ∧
    (init envReuse initialConfig true).2.1.user_email = none :=
  ⟨rfl, rfl, rfl⟩

/-- C5 (amended): every server-mode `init` that completes without error sets
`use_server = True` and both collaborator handles, and sets `user_email` to
the email yielded by the interactive login-or-register flow only on the
non-reuse path; on the cached-credential-reuse path `user_email` is left
unchanged (so it stays `None` on a fresh session). -/
theorem C5_server_init_populates (env : Env) (g : TabPFNConfig)
    (hok : (init env g true).1 = Except.ok ()) :
    (init env g true).2.1.use_server = some true ∧
    (init env g true).2.1.user_auth_handler = some ⟨env.verification⟩ ∧
    (init env g true).2.1.inference_handler = some env.inference ∧
    (init env g true).2.1.is_initialized = some true ∧
    (env.reuse_token = true →
      (init env g true).2.1.user_email = g.user_email) ∧
    (env.reuse_token = false →
      (init env g true).2.1.user_email = some env.login_email) := by
  by_cases hacc : env.accessible
  · by_cases hreuse : env.reuse_token
    · simp [init, hacc, hreuse]
    · by_cases hterms : env.terms_accepted
      · simp [init, hacc, hreuse, hterms]
      · simp [init, hacc, hreuse, hterms] at hok
  · simp [init, hacc] at hok

/-- C5 witness: the amended statement evaluated at the cached-credential
scenario from the fresh state. -/
theorem C5_server_init_populates_witness :
    (init envReuse initialConfig true).2.1.use_server = some true ∧
    (init envReuse initialConfig true).2.1.user_auth_handler =
      some ⟨envReuse.verification⟩ ∧
    (init envReuse initialConfig true).2.1.inference_handler =
      some envReuse.inference ∧
    (init envReuse initialConfig true).2.1.is_initialized = some true ∧
    (envReuse.reuse_token = true →
      (init envReuse initialConfig true).2.1.user_email =
        initialConfig.user_email) ∧
    (envReuse.reuse_token = false →
      (init envReuse initialConfig true).2.1.user_email =
        some envReuse.login_email) :=
  C5_server_init_populates envReuse initialConfig rfl

/-- A server-mode initialized session with a verifying auth handle and the
demo inference collaborator. -/
def demoSessionState : TabPFNConfig :=
  { is_initialized := some true, user_email := none, use_server := some true,
    user_auth_handler := some ⟨fun _ => true⟩,
    inference_handler := some inferenceDemo }

/-- A classifier that has been fitted. -/
def fittedClassifier : TabPFNClassifier :=
  { model := "latest_tabpfn_hosted", fitted := true }

/-- A fitted regressor with `optimize_metric = "rmse"`. -/
def fittedRegressor : TabPFNRegressor :=
  { model := "latest_tabpfn_hosted", optimize_metric := some "rmse",
    fitted := true }

/-! Helper lemmas about the regressor's predict path, shared below. -/

/-- On a fitted regressor with an inference handle, `predict_full` performs
the remote predict call and returns the full response mapping. -/
theorem predict_full_eq (g : TabPFNConfig) (r : TabPFNRegressor)
    (h : InferenceClient) (hfit : r.fitted = true)
    (hh : g.inference_handler = some h) :
    r.predict_full g =
      (Except.ok h.regression, [Event.inferencePredictCall "regression"]) := by
  simp [TabPFNRegressor.predict_full, hfit, hh]

/-- `predict` returns the "mean" field for the mean-family metrics. -/
theorem predict_metric_mean (g : TabPFNConfig) (r : TabPFNRegressor)
    (h : InferenceClient) (hfit : r.fitted = true)
    (hh : g.inference_handler = some h)
    (hm : r.optimize_metric ∈
      [some "mse", some "rmse", some "r2", some "mean", none]) :
    r.predict g =
      (Except.ok h.regression.mean, [Event.inferencePredictCall "regression"]) := by
  have hpf := predict_full_eq g r h hfit hh
  simp only [TabPFNRegressor.predict, hpf]
  rw [if_pos hm]

/-- `predict` returns the "median" field for the median-family metrics. -/
theorem predict_metric_median (g : TabPFNConfig) (r : TabPFNRegressor)
    (h : InferenceClient) (hfit : r.fitted = true)
    (hh : g.inference_handler = some h)
    (hm : r.optimize_metric ∈ [some "mae", some "median"]) :
    r.predict g =
      (Except.ok h.regression.median, [Event.inferencePredictCall "regression"]) := by
  have hpf := predict_full_eq g r h hfit hh
  have h1 : r.optimize_metric ∉
      [some "mse", some "rmse", some "r2", some "mean", none] := by
    simp only [List.mem_cons, List.not_mem_nil, or_false] at hm
    rcases hm with hm | hm <;> simp [hm]
  simp only [TabPFNRegressor.predict, hpf]
  rw [if_neg h1, if_pos hm]

/-- `predict` returns the "mode" field for the mode-family metrics. -/
theorem predict_metric_mode (g : TabPFNConfig) (r : TabPFNRegressor)
    (h : InferenceClient) (hfit : r.fitted = true)
    (hh : g.inference_handler = some h)
    (hm : r.optimize_metric ∈ [some "mode", some "exact_match"]) :
    r.predict g =
      (Except.ok h.regression.mode, [Event.inferencePredictCall "regression"]) := by
  have hpf := predict_full_eq g r h hfit hh
  have h1 : r.optimize_metric ∉
      [some "mse", some "rmse", some "r2", some "mean", none] := by
    simp only [List.mem_cons, List.not_mem_nil, or_false] at hm
    rcases hm with hm | hm <;> simp [hm]
  have h2 : r.optimize_metric ∉ [some "mae", some "median"] := by
    simp only [List.mem_cons, List.not_mem_nil, or_false] at hm
    rcases hm with hm | hm <;> simp [hm]
  simp only [TabPFNRegressor.predict, hpf]
  rw [if_neg h1, if_neg h2, if_pos hm]

/-- `predict` on an unsupported metric still performs the remote call, then
fails with the unsupported-metric error. -/
theorem predict_metric_unsupported (g : TabPFNConfig) (r : TabPFNRegressor)
    (h : InferenceClient) (hfit : r.fitted = true)
    (hh : g.inference_handler = some h)
    (hm : r.optimize_metric ∉
      [some "mse", some "rmse", some "r2", some "mean", none,
       some "mae", some "median", some "mode", some "exact_match"]) :
    r.predict g =
      (Except.error (EstimatorError.unsupportedMetric r.optimize_metric),
       [Event.inferencePredictCall "regression"]) := by
  have hpf := predict_full_eq g r h hfit hh
  simp only [List.mem_cons, List.not_mem_nil, or_false, not_or] at hm
  obtain ⟨h1, h2, h3, h4, h5, h6, h7, h8, h9⟩ := hm
  have hn1 : r.optimize_metric ∉
      [some "mse", some "rmse", some "r2", some "mean", none] := by
    simp [List.mem_cons, h1, h2, h3, h4, h5]
  have hn2 : r.optimize_metric ∉ [some "mae", some "median"] := by
    simp [List.mem_cons, h6, h7]
  have hn3 : r.optimize_metric ∉ [some "mode", some "exact_match"] := by
    simp [List.mem_cons, h8, h9]
  simp only [TabPFNRegressor.predict, hpf]
  rw [if_neg hn1, if_neg hn2, if_neg hn3]

/-- C6: on a fitted classifier with an inference handle, `predict` maps the
returned probability matrix row-wise through `np.argmax`: each returned
label is a valid index of its row at which the row attains its maximum. -/
theorem C6_classifier_predict_argmax (g : TabPFNConfig) (c : TabPFNClassifier)
    (h : InferenceClient) (hfit : c.fitted = true)
    (hh : g.inference_handler = some h) :
    (c.predict g).1 = Except.ok (h.probas.map np_argmax) ∧
    ∀ row ∈ h.probas, row ≠ [] →
      np_argmax row < row.length ∧
      ∀ j < row.length, row.getD j 0 ≤ row.getD (np_argmax row) 0 := by
  constructor
  · simp [TabPFNClassifier.predict, TabPFNClassifier.predict_proba, hfit, hh]
  · intro row _ hne
    exact ⟨np_argmax_lt row hne, np_argmax_le row⟩

/-- C6 witness: with the collaborator returning probabilities
`[[0.1, 0.9], [0.7, 0.3]]`, `predict` returns the labels `[1, 0]`. -/
theorem C6_classifier_predict_argmax_witness :
    (fittedClassifier.predict demoSessionState).1 = Except.ok [1, 0] := by
  have h := C6_classifier_predict_argmax demoSessionState fittedClassifier
    inferenceDemo rfl rfl
  rw [h.1]
  exact congrArg Except.ok (by decide)

/-- C7: on a fitted regressor with an inference handle, `predict` selects
exactly the "mean" field for metrics mse/rmse/r2/mean/None, the "median"
field for mae/median, the "mode" field for mode/exact_match, and fails with
the unsupported-metric error on any other value. -/
theorem C7_regressor_metric_selection (g : TabPFNConfig) (r : TabPFNRegressor)
    (h : InferenceClient) (hfit : r.fitted = true)
    (hh : g.inference_handler = some h) :
    (r.optimize_metric ∈ [some "mse", some "rmse", some "r2", some "mean", none] →
      (r.predict g).1 = Except.ok h.regression.mean) ∧
    (r.optimize_metric ∈ [some "mae", some "median"] →
      (r.predict g).1 = Except.ok h.regression.median) ∧
    (r.optimize_metric ∈ [some "mode", some "exact_match"] →
      (r.predict g).1 = Except.ok h.regression.mode) ∧
    (r.optimize_metric ∉
        [some "mse", some "rmse", some "r2", some "mean", none,
         some "mae", some "median", some "mode", some "exact_match"] →
      (r.predict g).1 =
        Except.error (EstimatorError.unsupportedMetric r.optimize_metric)) := by
  refine ⟨fun hm => ?_, fun hm => ?_, fun hm => ?_, fun hm => ?_⟩
  · rw [predict_metric_mean g r h hfit hh hm]
  · rw [predict_metric_median g r h hfit hh hm]
  · rw [predict_metric_mode g r h hfit hh hm]
  · rw [predict_metric_unsupported g r h hfit hh hm]

/-- C7 witness: with `optimize_metric = "rmse"` the demo regressor's
`predict` returns the "mean" field of the demo response; with `"median"` it
returns the "median" field. -/
theorem C7_regressor_metric_selection_witness :
    (fittedRegressor.predict demoSessionState).1 =
      Except.ok regressionDemo.mean ∧
    (TabPFNRegressor.predict
        { model := "latest_tabpfn_hosted", optimize_metric := some "median",
          fitted := true } demoSessionState).1 =
      Except.ok regressionDemo.median :=
  ⟨(C7_regressor_metric_selection demoSessionState fittedRegressor
      inferenceDemo rfl rfl).1 (by simp [fittedRegressor]),
   (C7_regressor_metric_selection demoSessionState
      { model := "latest_tabpfn_hosted", optimize_metric := some "median",
        fitted := true } inferenceDemo rfl rfl).2.1 (by simp)⟩

/-- C8: in an initialized server-mode session with an inference handle, a
`model` field differing from the `"latest_tabpfn_hosted"` sentinel does not
abort `fit` for either variant: the assertion failure is caught and printed
as a warning, `(X, y)` is still forwarded to the inference collaborator, the
estimator is marked fitted, and the estimator itself is returned. -/
theorem C8_model_mismatch_soft (g : TabPFNConfig) (c : TabPFNClassifier)
    (r : TabPFNRegressor) (h : InferenceClient)
    (hinit : pyTruthyOptBool g.is_initialized = true)
    (hsrv : pyTruthyOptBool g.use_server = true)
    (hh : g.inference_handler = some h)
    (hc : c.model ≠ "latest_tabpfn_hosted")
    (hr : r.model ≠ "latest_tabpfn_hosted") :
    (c.fit g).1 = Except.ok { c with fitted := true } ∧
    (c.fit g).2 = [Event.warnModelMismatch, Event.inferenceFitCall] ∧
    (r.fit g).1 = Except.ok { r with fitted := true } ∧
    (r.fit g).2 = [Event.warnModelMismatch, Event.inferenceFitCall] := by
  refine ⟨?_, ?_, ?_, ?_⟩ <;>
    simp [TabPFNClassifier.fit, TabPFNRegressor.fit, hinit, hsrv, hh, hc, hr]

/-- C8 witness: fitting estimators whose model is `"other_model"` in the
demo server-mode session warns and still fits. -/
theorem C8_model_mismatch_soft_witness :
    (TabPFNClassifier.fit { model := "other_model", fitted := false }
        demoSessionState).1 =
      Except.ok { model := "other_model", fitted := true } ∧
    (TabPFNClassifier.fit { model := "other_model", fitted := false }
        demoSessionState).2 =
      [Event.warnModelMismatch, Event.inferenceFitCall] ∧
    (TabPFNRegressor.fit
        { model := "other_model", optimize_metric := some "rmse",
          fitted := false } demoSessionState).1 =
      Except.ok { model := "other_model", optimize_metric := some "rmse",
                  fitted := true } ∧
    (TabPFNRegressor.fit
        { model := "other_model", optimize_metric := some "rmse",
          fitted := false } demoSessionState).2 =
      [Event.warnModelMismatch, Event.inferenceFitCall] :=
  C8_model_mismatch_soft demoSessionState
    { model := "other_model", fitted := false }
    { model := "other_model", optimize_metric := some "rmse", fitted := false }
    inferenceDemo rfl rfl rfl (by decide) (by decide)

/-- C9: whenever the session records a (truthy) `user_email` and the auth
handle reports it unverified, constructing either estimator variant fails
with the "verify your email" error, and the construction makes no call to
the inference collaborator's fit operation. -/
theorem C9_unverified_email_blocks (g : TabPFNConfig) (e : String)
    (h : UserAuthenticationClient) (model : String) (om : Option String)
    (he : g.user_email = some e) (hne : e ≠ "")
    (hh : g.user_auth_handler = some h)
    (hv : h.get_user_email_verification_status e = false) :
    (TabPFNClassifier.make g model).1 =
      Except.error EstimatorError.emailNotVerified ∧
    Event.inferenceFitCall ∉ (TabPFNClassifier.make g model).2 ∧
    (TabPFNRegressor.make g model om).1 =
      Except.error EstimatorError.emailNotVerified ∧
    Event.inferenceFitCall ∉ (TabPFNRegressor.make g model om).2 := by
  have hcv : checkUserVerification g =
      (Except.error EstimatorError.emailNotVerified,
       [Event.verificationStatusCall e]) := by
    simp [checkUserVerification, he, hne, hh, hv]
  refine ⟨?_, ?_, ?_, ?_⟩ <;>
    simp [TabPFNClassifier.make, TabPFNRegressor.make, hcv]

/-- C9 witness: construction in the unverified-email session fails with the
verify-email error for both variants, with no inference fit call. -/
theorem C9_unverified_email_blocks_witness :
    (TabPFNClassifier.make unverifiedSession "latest_tabpfn_hosted").1 =
      Except.error EstimatorError.emailNotVerified ∧
    Event.inferenceFitCall ∉
      (TabPFNClassifier.make unverifiedSession "latest_tabpfn_hosted").2 ∧
    (TabPFNRegressor.make unverifiedSession "latest_tabpfn_hosted"
        (some "rmse")).1 =
      Except.error EstimatorError.emailNotVerified ∧
    Event.inferenceFitCall ∉
      (TabPFNRegressor.make unverifiedSession "latest_tabpfn_hosted"
        (some "rmse")).2 :=
  C9_unverified_email_blocks unverifiedSession "user@example.com"
    ⟨fun _ => false⟩ "latest_tabpfn_hosted" (some "rmse")
    rfl (by decide) rfl rfl

/-- C10: on a fitted regressor with an inference handle and an unsupported
`optimize_metric`, `predict` still performs the remote predict call (via
`predict_full`) — the call event is recorded — and only then fails with the
unsupported-metric error. -/
theorem C10_remote_call_before_metric_check (g : TabPFNConfig)
    (r : TabPFNRegressor) (h : InferenceClient)
    (hfit : r.fitted = true) (hh : g.inference_handler = some h)
    (hm : r.optimize_metric ∉
      [some "mse", some "rmse", some "r2", some "mean", none,
       some "mae", some "median", some "mode", some "exact_match"]) :
    (r.predict_full g).2 = [Event.inferencePredictCall "regression"] ∧
    (r.predict g).1 =
      Except.error (EstimatorError.unsupportedMetric r.optimize_metric) ∧
    (r.predict g).2 = [Event.inferencePredictCall "regression"] := by
  have hpf := predict_full_eq g r h hfit hh
  have hp := predict_metric_unsupported g r h hfit hh hm
  exact ⟨by rw [hpf], by rw [hp], by rw [hp]⟩

/-- C10 witness: the demo regressor with `optimize_metric = "bogus"` records
the remote predict call and fails with the unsupported-metric error. -/
theorem C10_remote_call_before_metric_check_witness :
    (TabPFNRegressor.predict_full
        { model := "latest_tabpfn_hosted", optimize_metric := some "bogus",
          fitted := true } demoSessionState).2 =
      [Event.inferencePredictCall "regression"] ∧
    (TabPFNRegressor.predict
        { model := "latest_tabpfn_hosted", optimize_metric := some "bogus",
          fitted := true } demoSessionState).1 =
      Except.error (EstimatorError.unsupportedMetric (some "bogus")) ∧
    (TabPFNRegressor.predict
        { model := "latest_tabpfn_hosted", optimize_metric := some "bogus",
          fitted := true } demoSessionState).2 =
      [Event.inferencePredictCall "regression"] :=
  C10_remote_call_before_metric_check demoSessionState
    { model := "latest_tabpfn_hosted", optimize_metric := some "bogus",
      fitted := true }
    inferenceDemo rfl rfl (by simp)

end TabPFNClient
